import Mathlib

/-!
Shallow embedding, in Lean 4, of the diagnostic core of the CarDocAI backend
(`backend/services/audio_analyzer.py`, `backend/services/image_analyzer.py`,
and the audio route of `backend/routers/diagnosis.py`), together with theorems
settling the specification claims about it.

Modelling conventions:
* Python floats carrying scores, confidences, strengths, energies and
  frequencies are modelled as exact rationals (`ℚ`).
* Calls into external libraries (librosa / numpy / scipy feature extraction,
  OpenCV decoding and contour extraction) are not code of this repository;
  their outputs are passed in as explicit parameters ("oracle" values), and
  every piece of repository logic consuming those outputs is translated
  statement by statement.
* Python dictionaries produced by the repository are modelled as structures;
  a `dict.get(key, default)` read of a possibly absent key is modelled with an
  `Option` plus an accessor returning the default in the `none` case.
* Python `list.sort(key=..., reverse=True)` is a stable descending sort; its
  output is uniquely determined by the comparison key and stability, and is
  modelled by `List.insertionSort` with the relation "left confidence ≥ right
  confidence", which is stable in exactly the same sense.
-/

namespace CarDocAI

/-- Entry of the `sound_patterns` list built by `_detect_sound_patterns`
(audio_analyzer.py).  Only the keys read downstream (`pattern_type`,
`strength`) are modelled. -/
structure SoundPattern where
  pattern_type : String
  strength : ℚ
deriving DecidableEq

/-- The seven fixed frequency-band energies computed by
`_analyze_frequency_spectrum` (audio_analyzer.py, `frequency_bands` dict). -/
structure Bands where
  sub_bass : ℚ
  bass : ℚ
  low_mid : ℚ
  mid : ℚ
  high_mid : ℚ
  presence : ℚ
  brilliance : ℚ
deriving DecidableEq

/-- Keys of the dictionary returned by `_analyze_frequency_spectrum` that are
read by `_detect_engine_faults` and `_calculate_enhanced_confidence`. -/
structure FrequencyAnalysis where
  dominant_frequency : ℚ
  frequency_bands : Bands
  peak_frequencies : List ℚ
deriving DecidableEq

/-- Result of `_analyze_audio_quality` (audio_analyzer.py); only the keys read
by the claims and by `_calculate_enhanced_confidence` are modelled. -/
structure AudioQuality where
  score : ℚ
  rating : String
  issues : List String
deriving DecidableEq

/-- One entry of the static `engine_fault_patterns` table set up in
`AudioAnalyzer.__init__` (audio_analyzer.py). -/
structure FaultSignature where
  name : String
  freq_lo : ℚ
  freq_hi : ℚ
  characteristics : List String
  severity : String
  urgency : String
  keywords : List String
deriving DecidableEq

/-- The static fault-signature table of `AudioAnalyzer.__init__`, in its
declaration order (Python dicts iterate in insertion order). -/
def engine_fault_patterns : List FaultSignature :=
  [ { name := "spark_plug_misfire", freq_lo := 800, freq_hi := 2500,
      characteristics := ["irregular", "popping", "intermittent"],
      severity := "warning", urgency := "warning",
      keywords := ["spark plug misfire", "engine misfire repair", "ignition system fix"] },
    { name := "timing_chain_rattle", freq_lo := 1200, freq_hi := 4000,
      characteristics := ["metallic", "startup_noise", "chain_rattle"],
      severity := "critical", urgency := "critical",
      keywords := ["timing chain rattle", "timing chain replacement", "engine timing noise"] },
    { name := "worn_engine_bearings", freq_lo := 500, freq_hi := 2000,
      characteristics := ["deep_knocking", "load_dependent", "metallic"],
      severity := "critical", urgency := "critical",
      keywords := ["engine bearing noise", "rod bearing replacement", "engine rebuild"] },
    { name := "valve_lifter_noise", freq_lo := 1000, freq_hi := 3000,
      characteristics := ["ticking", "rhythmic", "top_end"],
      severity := "warning", urgency := "warning",
      keywords := ["valve lifter noise", "hydraulic lifter repair", "valve adjustment"] },
    { name := "serpentine_belt_squeal", freq_lo := 2000, freq_hi := 8000,
      characteristics := ["high_pitched", "continuous", "belt_related"],
      severity := "warning", urgency := "warning",
      keywords := ["serpentine belt squeal", "belt replacement", "belt tensioner repair"] },
    { name := "brake_pad_squeal", freq_lo := 3000, freq_hi := 10000,
      characteristics := ["very_high_pitched", "braking_only", "metallic"],
      severity := "warning", urgency := "warning",
      keywords := ["brake pad squeal", "brake pad replacement", "brake service"] },
    { name := "cv_joint_clicking", freq_lo := 1500, freq_hi := 5000,
      characteristics := ["clicking", "turning_only", "rhythmic"],
      severity := "warning", urgency := "warning",
      keywords := ["CV joint clicking", "CV joint replacement", "axle repair"] },
    { name := "exhaust_leak", freq_lo := 100, freq_hi := 1000,
      characteristics := ["hissing", "continuous", "exhaust_related"],
      severity := "normal", urgency := "normal",
      keywords := ["exhaust leak repair", "muffler replacement", "exhaust system fix"] },
    { name := "turbo_whistle", freq_lo := 4000, freq_hi := 12000,
      characteristics := ["whistling", "boost_dependent", "high_pitched"],
      severity := "warning", urgency := "warning",
      keywords := ["turbo whistle", "turbocharger repair", "boost leak fix"] },
    { name := "engine_knock", freq_lo := 1000, freq_hi := 4000,
      characteristics := ["knocking", "load_dependent", "metallic"],
      severity := "critical", urgency := "critical",
      keywords := ["engine knock repair", "carbon cleaning", "octane booster"] } ]

/-- Models `frequency_analysis.get("dominant_frequency", 0)`; `none` stands
for the failed-analysis dictionary, which lacks the key. -/
def domFreq : Option FrequencyAnalysis → ℚ
  | none => 0
  | some fa => fa.dominant_frequency

/-- Models `frequency_analysis.get("frequency_bands", {})` followed by
`band_energies.get(name, 0)` for each band name. -/
def bandsOf : Option FrequencyAnalysis → Bands
  | none => { sub_bass := 0, bass := 0, low_mid := 0, mid := 0,
              high_mid := 0, presence := 0, brilliance := 0 }
  | some fa => fa.frequency_bands

/-- Models `frequency_analysis.get("peak_frequencies", [])`. -/
def peakFreqs : Option FrequencyAnalysis → List ℚ
  | none => []
  | some fa => fa.peak_frequencies

/-- Models `sum(band_energies.values())` in `_detect_engine_faults`. -/
def sumBands (b : Bands) : ℚ :=
  b.sub_bass + b.bass + b.low_mid + b.mid + b.high_mid + b.presence + b.brilliance

/-- Evidence source 1a of `_detect_engine_faults`: the dominant frequency lies
in the signature's range (`freq_range[0] <= dominant_freq <= freq_range[1]`,
adding 0.3). -/
def freqRangeScore (sig : FaultSignature) (freq : Option FrequencyAnalysis) : ℚ :=
  if sig.freq_lo ≤ domFreq freq ∧ domFreq freq ≤ sig.freq_hi then 0.3 else 0

/-- Evidence source 1b of `_detect_engine_faults`: peak frequencies inside the
signature's range add `0.2 * min(len(matching_peaks) / 3, 1.0)` when at least
one peak matches. -/
def matchingPeaks (sig : FaultSignature) (freq : Option FrequencyAnalysis) :
    List ℚ :=
  (peakFreqs freq).filter (fun f => decide (sig.freq_lo ≤ f ∧ f ≤ sig.freq_hi))

def peakScore (sig : FaultSignature) (freq : Option FrequencyAnalysis) : ℚ :=
  if matchingPeaks sig freq ≠ [] then
    0.2 * min (((matchingPeaks sig freq).length : ℚ) / 3) 1
  else 0

/-- Evidence source 2 of `_detect_engine_faults`: the per-signature frequency
band energy rules (the `if`/`elif` chain keyed on the fault name). -/
def bandScore (name : String) (freq : Option FrequencyAnalysis) : ℚ :=
  let b := bandsOf freq
  if name = "spark_plug_misfire" ∨ name = "valve_lifter_noise" then
    (if b.mid > b.bass then 0.2 else 0)
  else if name = "timing_chain_rattle" ∨ name = "engine_knock" then
    (if b.high_mid > b.sub_bass then 0.2 else 0)
  else if name = "serpentine_belt_squeal" ∨ name = "brake_pad_squeal" then
    (if b.presence > sumBands b * 0.3 then 0.3 else 0)
  else if name = "worn_engine_bearings" ∨ name = "exhaust_leak" then
    (if b.bass > b.presence then 0.2 else 0)
  else 0

/-- Evidence source 3 of `_detect_engine_faults`: contribution of one detected
sound pattern to one signature (the `if`/`elif` chain inside the
`for pattern in sound_patterns` loop). -/
def patternContrib (name : String) (p : SoundPattern) : ℚ :=
  if name = "spark_plug_misfire" ∧ p.pattern_type = "impulsive" then
    p.strength * 0.3
  else if (name = "timing_chain_rattle" ∨ name = "valve_lifter_noise" ∨
      name = "cv_joint_clicking") ∧ p.pattern_type = "rhythmic" then
    p.strength * 0.3
  else if (name = "serpentine_belt_squeal" ∨ name = "brake_pad_squeal" ∨
      name = "turbo_whistle") ∧ p.pattern_type = "continuous" then
    p.strength * 0.3
  else if (name = "worn_engine_bearings" ∨ name = "engine_knock") ∧
      p.pattern_type = "noise" then
    p.strength * 0.2
  else 0

/-- Total pattern evidence for one signature: the loop accumulates the
contribution of every pattern in `sound_patterns`. -/
def patternScore (name : String) (ps : List SoundPattern) : ℚ :=
  (ps.map (patternContrib name)).sum

/-- Accumulated confidence of one signature in `_detect_engine_faults`:
`confidence` starts at 0.0 and each evidence block adds its score. -/
def faultConfidence (sig : FaultSignature) (freq : Option FrequencyAnalysis)
    (ps : List SoundPattern) : ℚ :=
  freqRangeScore sig freq + peakScore sig freq + bandScore sig.name freq +
    patternScore sig.name ps

/-- Dictionary appended to `detected_faults` in `_detect_engine_faults`.  The
purely cosmetic keys `display_name` (a re-spelling of `name`) and `evidence`
(log strings naming the rules that fired) are not modelled. -/
structure FaultCandidate where
  name : String
  confidence : ℚ
  severity : String
  urgency : String
  keywords : List String
  freq_lo : ℚ
  freq_hi : ℚ
  characteristics : List String
deriving DecidableEq

/-- Candidate built from a signature whose accumulated confidence passed the
threshold; its recorded confidence is `min(confidence, 1.0)`. -/
def mkCandidate (sig : FaultSignature) (freq : Option FrequencyAnalysis)
    (ps : List SoundPattern) : FaultCandidate :=
  { name := sig.name,
    confidence := min (faultConfidence sig freq ps) 1,
    severity := sig.severity,
    urgency := sig.urgency,
    keywords := sig.keywords,
    freq_lo := sig.freq_lo,
    freq_hi := sig.freq_hi,
    characteristics := sig.characteristics }

/-- Comparison used by `detected_faults.sort(key=lambda x: x["confidence"],
reverse=True)`: left element sorts no later than right element. -/
def faultGE (a b : FaultCandidate) : Prop := b.confidence ≤ a.confidence

instance : DecidableRel faultGE :=
  fun a b => inferInstanceAs (Decidable (b.confidence ≤ a.confidence))

instance : IsTotal FaultCandidate faultGE :=
  ⟨fun a b => le_total b.confidence a.confidence⟩

instance : IsTrans FaultCandidate faultGE :=
  ⟨fun _ _ _ h1 h2 => le_trans h2 h1⟩

/-- Embedding of `_detect_engine_faults`: every signature of the static table
whose accumulated confidence exceeds 0.4 becomes a candidate, and the
candidate list is stably sorted by confidence, descending. -/
def detect_engine_faults (freq : Option FrequencyAnalysis)
    (ps : List SoundPattern) : List FaultCandidate :=
  List.insertionSort faultGE
    ((engine_fault_patterns.filter
        (fun sig => decide (faultConfidence sig freq ps > 0.4))).map
      (fun sig => mkCandidate sig freq ps))

/-- Embedding of `_determine_urgency_level`: the two early-returning `for`
loops are the two `any` tests, tried in that order. -/
def determine_urgency_level (faults : List FaultCandidate) : String :=
  if faults.isEmpty then "normal"
  else if faults.any (fun f => f.urgency == "critical") then "critical"
  else if faults.any (fun f => f.urgency == "warning") then "warning"
  else "normal"

/-- Embedding of `_extract_repair_keywords`: the loop extends one list with
every candidate's keywords; Python then deduplicates through `set` (whose
iteration order the interpreter does not fix; first occurrences are kept
here) and truncates to 8 entries. -/
def extract_repair_keywords (faults : List FaultCandidate) : List String :=
  ((faults.foldl (fun acc f => acc ++ f.keywords) []).eraseDups).take 8

/-- Embedding of `_calculate_enhanced_confidence`, accumulating the four
components in program order and capping at 1.0. -/
def calculate_enhanced_confidence (detected_faults : List FaultCandidate)
    (audio_quality : AudioQuality) (freq : Option FrequencyAnalysis)
    (sound_patterns : List SoundPattern) : ℚ :=
  let c1 := audio_quality.score * 0.3
  let c2 :=
    if detected_faults ≠ [] then
      ((detected_faults.map
          (fun f => f.confidence *
            (if f.severity = "critical" then 1 else 0.8))).sum /
        (detected_faults.length : ℚ)) * 0.4
    else 0.2
  let c3 := if domFreq freq > 0 then 0.2 else 0
  let c4 :=
    if sound_patterns ≠ [] then
      ((sound_patterns.map (fun p => p.strength)).sum /
        (sound_patterns.length : ℚ)) * 0.1
    else 0
  min (c1 + c2 + c3 + c4) 1

/-- Outputs of the librosa/numpy/scipy feature-extraction layer for one
decoded waveform, as consumed by the repository's analysis code.  A `none`
frequency analysis stands for the `{"analysis_failed": True}` dictionary that
`_analyze_frequency_spectrum` returns when an internal computation throws. -/
structure DspFeatures where
  audio_quality : AudioQuality
  frequency_analysis : Option FrequencyAnalysis
  sound_patterns : List SoundPattern
deriving DecidableEq

/-- Fields of the dictionary returned by `analyze_engine_sound` that the
claims mention.  The success dictionary has no `analysis_failed` /
`error_message` keys; the router reads them with
`get("analysis_failed", False)`, modelled by storing the defaults. -/
structure AnalysisResult where
  analysis_successful : Bool
  analysis_failed : Bool
  error_message : String
  detected_sounds : List String
  detected_faults : List FaultCandidate
  sound_patterns : List SoundPattern
  audio_quality : AudioQuality
  overall_confidence : ℚ
  urgency_level : String
  repair_keywords : List String
deriving DecidableEq

/-- Embedding of `_create_failed_analysis`. -/
def create_failed_analysis (error_message : String) : AnalysisResult :=
  { analysis_successful := false,
    analysis_failed := true,
    error_message := error_message,
    detected_sounds := [],
    detected_faults := [],
    sound_patterns := [],
    audio_quality := { score := 0, rating := "failed", issues := [error_message] },
    overall_confidence := 0,
    urgency_level := "normal",
    repair_keywords := ["audio analysis failed", "re-record audio"] }

/-- Embedding of `analyze_engine_sound`.  `decoded = none` models a
`librosa.load` failure (undecodable bytes); `some y` is the decoded waveform.
The `dsp` parameter supplies the external feature-extraction outputs for the
waveform; every failure inside an individual extractor is already absorbed by
that extractor's own `try`/`except`, so the success branch is total and the
function never raises past the component boundary. -/
def analyze_engine_sound (decoded : Option (List ℚ))
    (dsp : List ℚ → DspFeatures) : AnalysisResult :=
  match decoded with
  | none => create_failed_analysis "Audio file could not be loaded or is corrupted"
  | some y =>
    if y.length = 0 then create_failed_analysis "Audio file is empty"
    else
      let f := dsp y
      let faults := detect_engine_faults f.frequency_analysis f.sound_patterns
      { analysis_successful := true,
        analysis_failed := false,
        error_message := "",
        detected_sounds := faults.map (fun c => c.name),
        detected_faults := faults,
        sound_patterns := f.sound_patterns,
        audio_quality := f.audio_quality,
        overall_confidence :=
          calculate_enhanced_confidence faults f.audio_quality
            f.frequency_analysis f.sound_patterns,
        urgency_level := determine_urgency_level faults,
        repair_keywords := extract_repair_keywords faults }

/-- The `supported_formats` whitelist of `AudioAnalyzer.__init__`, mapping a
declared content type to its admissible file extensions, in declaration
order. -/
def supported_formats : List (String × List String) :=
  [ ("audio/wav", [".wav"]),
    ("audio/mpeg", [".mp3"]),
    ("audio/mp4", [".m4a"]),
    ("audio/x-m4a", [".m4a"]),
    ("audio/ogg", [".ogg"]),
    ("audio/flac", [".flac"]) ]

/-- Suffix of a character list after its last dot. -/
def afterLastDot (cs : List Char) : List Char :=
  (cs.reverse.takeWhile (fun c => !(c == '.'))).reverse

/-- Extension part of `os.path.splitext(filename)`: the suffix starting at the
last dot, except that leading dots of the name never start an extension. -/
def splitextExtension (s : String) : String :=
  let rest := s.toList.dropWhile (fun c => c == '.')
  if rest.contains '.' then String.mk ('.' :: afterLastDot rest) else ""

/-- Embedding of `AudioAnalyzer.validate_audio_format`.  The Python `except`
branch (reachable only when the arguments are not strings) is not modelled. -/
def validate_audio_format (content_type filename : String) : Bool × String :=
  if !(content_type.startsWith "audio/") then
    (false, "File must be an audio file")
  else
    match supported_formats.lookup content_type with
    | none =>
      (false, "Unsupported audio format. Supported formats: " ++
        String.intercalate ", " (supported_formats.map (fun p => p.fst)))
    | some expected_extensions =>
      if filename ≠ "" then
        let file_ext := splitextExtension filename.toLower
        if !(expected_extensions.contains file_ext) then
          (false, "File extension " ++ file_ext ++
            " doesn't match content type " ++ content_type)
        else (true, "Valid audio format")
      else (true, "Valid audio format")

/-- Outcome of the `/diagnose/engine-sound` route (diagnosis.py): the three
`HTTPException` exits and the completed response. -/
inductive RouteOutcome where
  | userNotFound : RouteOutcome
  | validationFailure (detail : String) : RouteOutcome
  | analysisFailure (detail : String) : RouteOutcome
  | completed (result : AnalysisResult) : RouteOutcome
deriving DecidableEq

/-- Embedding of the control flow of `diagnose_engine_sound` (diagnosis.py):
user check, then format validation, then decoding and analysis of the
uploaded bytes (`decoded` and `dsp` describe those bytes), then the
`analysis_failed` check.  Storage, Gemini and YouTube calls that follow a
successful analysis are outside the claims and are not modelled. -/
def diagnose_engine_sound (userExists : Bool) (content_type filename : String)
    (decoded : Option (List ℚ)) (dsp : List ℚ → DspFeatures) : RouteOutcome :=
  if !userExists then RouteOutcome.userNotFound
  else
    let v := validate_audio_format content_type filename
    if !v.fst then RouteOutcome.validationFailure v.snd
    else
      let res := analyze_engine_sound decoded dsp
      if res.analysis_failed then
        RouteOutcome.analysisFailure ("Audio analysis failed: " ++ res.error_message)
      else RouteOutcome.completed res

/-- Dictionary built for one accepted contour in `_detect_color_lights`
(image_analyzer.py).  Only the keys read downstream are modelled: `position`
(as `x`, `y`), `confidence`, `color`, `severity`. -/
structure WarningLight where
  color : String
  x : ℤ
  y : ℤ
  confidence : ℚ
  severity : String
deriving DecidableEq

/-- Squared Euclidean distance between two light centers.  The code compares
`sqrt(dx**2 + dy**2) < 30` on integer center coordinates; over nonnegative
reals that holds exactly when `dx^2 + dy^2 < 900`, so the square root is
eliminated to stay in exact arithmetic. -/
def distSq (a b : WarningLight) : ℤ :=
  (a.x - b.x) ^ 2 + (a.y - b.y) ^ 2

/-- Embedding of `_calculate_light_confidence`: the three `if`/`elif` score
blocks accumulated in program order, then `min(confidence, 1.0)`. -/
def calculate_light_confidence (area aspect_ratio brightness : ℚ) : ℚ :=
  let c1 := if 50 < area ∧ area < 500 then (0.4 : ℚ)
    else if 20 < area ∧ area < 1000 then 0.2 else 0
  let c2 := if 0.5 < aspect_ratio ∧ aspect_ratio < 2.0 then (0.3 : ℚ)
    else if 0.3 < aspect_ratio ∧ aspect_ratio < 3.0 then 0.1 else 0
  let c3 := if brightness > 0.6 then (0.3 : ℚ)
    else if brightness > 0.4 then 0.2
    else if brightness > 0.2 then 0.1 else 0
  min (c1 + c2 + c3) 1

/-- Embedding of `_map_color_to_severity` (`severity_map.get(color,
"medium")`). -/
def map_color_to_severity (color : String) : String :=
  if color = "red" then "critical"
  else if color = "orange" then "high"
  else if color = "amber" then "high"
  else if color = "yellow" then "medium"
  else if color = "blue" then "low"
  else if color = "green" then "low"
  else "medium"

/-- Acceptance condition for one contour in `_detect_color_lights`: the area
gate `20 < area < 2000` and then the confidence gate `confidence > 0.3`. -/
def lightAccepted (area aspect_ratio brightness : ℚ) : Prop :=
  (20 < area ∧ area < 2000) ∧
    calculate_light_confidence area aspect_ratio brightness > 0.3

/-- Comparison used by the two `sort(key=lambda x: x.get("confidence", 0),
reverse=True)` calls of image_analyzer.py. -/
def lightGE (a b : WarningLight) : Prop := b.confidence ≤ a.confidence

instance : DecidableRel lightGE :=
  fun a b => inferInstanceAs (Decidable (b.confidence ≤ a.confidence))

instance : IsTotal WarningLight lightGE :=
  ⟨fun a b => le_total b.confidence a.confidence⟩

instance : IsTrans WarningLight lightGE :=
  ⟨fun _ _ _ h1 h2 => le_trans h2 h1⟩

/-- Duplicate test of `_remove_overlapping_lights`: some already kept light is
closer than 30 pixels. -/
def isDuplicateOf (light : WarningLight) (kept : List WarningLight) : Bool :=
  kept.any (fun e => decide (distSq light e < 900))

/-- Greedy keep loop of `_remove_overlapping_lights`, accumulating
`filtered_lights` in order. -/
def nmsKeep : List WarningLight → List WarningLight → List WarningLight
  | kept, [] => kept
  | kept, l :: rest =>
    if isDuplicateOf l kept then nmsKeep kept rest
    else nmsKeep (kept ++ [l]) rest

/-- Embedding of `_remove_overlapping_lights`: lists of length at most 1 are
returned unchanged; otherwise candidates are stably sorted by confidence
descending and greedily filtered. -/
def remove_overlapping_lights (lights : List WarningLight) : List WarningLight :=
  if lights.length ≤ 1 then lights
  else nmsKeep [] (List.insertionSort lightGE lights)

/-- Outputs of the OpenCV layer for one decoded image, as consumed by the
repository's logic: the dashboard heuristic verdict, the per-color contour
candidates of `_detect_color_lights` (concatenated in color order), and the
image quality result. -/
structure ImageFeatures where
  dashboard_detected : Bool
  candidate_lights : List WarningLight
  quality_score : ℚ
  quality_issues : List String
deriving DecidableEq

/-- Fields of the dictionary returned by `analyze_dashboard_image` that the
claims mention. -/
structure ImageAnalysisResult where
  dashboard_detected : Bool
  detected_lights : List WarningLight
  image_quality_score : ℚ
  image_quality_issues : List String
  overall_confidence : ℚ
  processing_successful : Bool
deriving DecidableEq

/-- Embedding of `_calculate_overall_confidence` (image_analyzer.py). -/
def calculate_overall_confidence (detected_lights : List WarningLight)
    (dashboard_detected : Bool) (quality_score : ℚ) : ℚ :=
  let c1 := if dashboard_detected then (0.3 : ℚ) else 0
  let c2 := quality_score * 0.3
  let c3 :=
    if detected_lights ≠ [] then
      ((detected_lights.map (fun l => l.confidence)).sum /
        (detected_lights.length : ℚ)) * 0.4
    else 0.2
  min (c1 + c2 + c3) 1

/-- Embedding of `_detect_warning_lights`: collect the per-color candidates,
remove overlapping detections, then sort by confidence. -/
def detect_warning_lights (candidates : List WarningLight) : List WarningLight :=
  List.insertionSort lightGE (remove_overlapping_lights candidates)

/-- Embedding of `analyze_dashboard_image`.  `decoded = none` models a buffer
`cv2.imdecode` cannot decode (the raised `ValueError` is caught by the
function's own `except` branch, which returns the fallback dictionary), so no
exception crosses the component boundary. -/
def analyze_dashboard_image (decoded : Option ImageFeatures) : ImageAnalysisResult :=
  match decoded with
  | none =>
    { dashboard_detected := false,
      detected_lights := [],
      image_quality_score := 0.5,
      image_quality_issues := ["Analysis failed"],
      overall_confidence := 0.3,
      processing_successful := false }
  | some img =>
    let lights := detect_warning_lights img.candidate_lights
    { dashboard_detected := img.dashboard_detected,
      detected_lights := lights,
      image_quality_score := img.quality_score,
      image_quality_issues := img.quality_issues,
      overall_confidence :=
        calculate_overall_confidence lights img.dashboard_detected
          img.quality_score,
      processing_successful := true }

/-- Overall audio confidence exactly as the specification words it: quality
score times 0.3, plus the severity-weighted mean fault confidence times 0.4
when candidates exist (else 0.2), plus 0.2 when the dominant frequency is
positive, plus the mean pattern strength times 0.1 (0 without patterns),
capped at 1.0.  Stated independently of the code to compare against
`calculate_enhanced_confidence`. -/
def specOverallAudioConfidence (detected_faults : List FaultCandidate)
    (quality_score dominant_frequency : ℚ) (pattern_strengths : List ℚ) : ℚ :=
  min
    (quality_score * 0.3 +
      (if detected_faults ≠ [] then
        ((detected_faults.map (fun f =>
            f.confidence * (if f.severity = "critical" then 1 else 0.8))).sum /
          (detected_faults.length : ℚ)) * 0.4
      else 0.2) +
      (if dominant_frequency > 0 then 0.2 else 0) +
      (if pattern_strengths ≠ [] then
        (pattern_strengths.sum / (pattern_strengths.length : ℚ)) * 0.1 else 0))
    1

/-- Area-band score of the specification's light-confidence formula. -/
def specAreaScore (area : ℚ) : ℚ :=
  if 50 < area ∧ area < 500 then 0.4
  else if 20 < area ∧ area < 1000 then 0.2
  else 0

/-- Aspect-ratio score of the specification's light-confidence formula. -/
def specAspectScore (aspect_ratio : ℚ) : ℚ :=
  if 0.5 < aspect_ratio ∧ aspect_ratio < 2.0 then 0.3
  else if 0.3 < aspect_ratio ∧ aspect_ratio < 3.0 then 0.1
  else 0

/-- Brightness score of the specification's light-confidence formula. -/
def specBrightnessScore (brightness : ℚ) : ℚ :=
  if brightness > 0.6 then 0.3
  else if brightness > 0.4 then 0.2
  else if brightness > 0.2 then 0.1
  else 0

/-- Plausible feature-extraction output for a silent waveform, used to
instantiate universally quantified statements at a concrete input. -/
def silentDsp : List ℚ → DspFeatures := fun _ =>
  { audio_quality := { score := 0, rating := "poor", issues := [] },
    frequency_analysis := some
      { dominant_frequency := 0,
        frequency_bands := { sub_bass := 0, bass := 0, low_mid := 0, mid := 0,
                             high_mid := 0, presence := 0, brilliance := 0 },
        peak_frequencies := [] },
    sound_patterns := [] }

/-- Sample frequency analysis with a 1500 Hz dominant peak and mid-band
dominance, used to instantiate theorems at a concrete input. -/
def sampleFA : FrequencyAnalysis :=
  { dominant_frequency := 1500,
    frequency_bands := { sub_bass := 1, bass := 2, low_mid := 3, mid := 40,
                         high_mid := 5, presence := 6, brilliance := 7 },
    peak_frequencies := [1500, 1600] }

/-- First entry of the static fault table (spark plug misfire), restated for
use in concrete instantiations. -/
def sparkPlugSig : FaultSignature :=
  { name := "spark_plug_misfire", freq_lo := 800, freq_hi := 2500,
    characteristics := ["irregular", "popping", "intermittent"],
    severity := "warning", urgency := "warning",
    keywords := ["spark plug misfire", "engine misfire repair", "ignition system fix"] }

/-- Names of the static fault table are pairwise distinct, so a candidate's
name identifies its signature. -/
theorem engine_fault_patterns_names_nodup :
    (engine_fault_patterns.map (fun sig => sig.name)).Nodup := by decide

theorem mkCandidate_inj_on (freq : Option FrequencyAnalysis)
    (ps : List SoundPattern) :
    ∀ s1 ∈ engine_fault_patterns, ∀ s2 ∈ engine_fault_patterns,
      mkCandidate s1 freq ps = mkCandidate s2 freq ps → s1 = s2 := by
  intro s1 h1 s2 h2 he
  exact List.inj_on_of_nodup_map engine_fault_patterns_names_nodup h1 h2
    (congrArg FaultCandidate.name he)

/-- Inserting a candidate whose confidence is the filtered value prepends it
to the filtered list: the elements skipped by `orderedInsert` all have
strictly larger confidence. -/
theorem filter_conf_orderedInsert_eq (q : ℚ) (a : FaultCandidate)
    (l : List FaultCandidate) (ha : a.confidence = q) :
    (List.orderedInsert faultGE a l).filter (fun x => decide (x.confidence = q)) =
      a :: l.filter (fun x => decide (x.confidence = q)) := by
  induction l with
  | nil => simp [List.orderedInsert, ha]
  | cons b t ih =>
    by_cases h : faultGE a b
    · simp [List.orderedInsert, h, ha]
    · have hb : ¬ b.confidence = q := by
        intro hc
        exact h (le_of_eq (hc.trans ha.symm))
      simp [List.orderedInsert, h, hb, ih]

/-- Inserting a candidate whose confidence differs from the filtered value
leaves the filtered list unchanged. -/
theorem filter_conf_orderedInsert_ne (q : ℚ) (a : FaultCandidate)
    (l : List FaultCandidate) (ha : ¬ a.confidence = q) :
    (List.orderedInsert faultGE a l).filter (fun x => decide (x.confidence = q)) =
      l.filter (fun x => decide (x.confidence = q)) := by
  induction l with
  | nil => simp [List.orderedInsert, ha]
  | cons b t ih =>
    by_cases h : faultGE a b
    · simp [List.orderedInsert, h, ha]
    · rw [List.orderedInsert, if_neg h]
      simp only [List.filter_cons]
      rw [ih]

/-- Stability of the embedded sort: at every fixed confidence value the sorted
list restricts to exactly the original sublist, in its original order. -/
theorem filter_conf_insertionSort (q : ℚ) (l : List FaultCandidate) :
    (List.insertionSort faultGE l).filter (fun x => decide (x.confidence = q)) =
      l.filter (fun x => decide (x.confidence = q)) := by
  induction l with
  | nil => rfl
  | cons a t ih =>
    by_cases ha : a.confidence = q
    · rw [List.insertionSort, filter_conf_orderedInsert_eq q a _ ha, ih]
      simp [ha]
    · rw [List.insertionSort, filter_conf_orderedInsert_ne q a _ ha, ih]
      simp [ha]

theorem distSq_comm (a b : WarningLight) : distSq a b = distSq b a := by
  unfold distSq; ring

/-- Invariant of the greedy keep loop: if the kept lights are pairwise at
least 30 pixels apart, so is the final output. -/
theorem nmsKeep_pairwise (rest : List WarningLight) :
    ∀ kept : List WarningLight,
      kept.Pairwise (fun a b => 900 ≤ distSq a b) →
      (nmsKeep kept rest).Pairwise (fun a b => 900 ≤ distSq a b) := by
  induction rest with
  | nil => intro kept h; exact h
  | cons l t ih =>
    intro kept h
    by_cases hd : isDuplicateOf l kept
    · simpa [nmsKeep, hd] using ih kept h
    · have hall : ∀ e ∈ kept, ¬ distSq l e < 900 := by
        intro e he
        have hfalse : kept.any (fun e => decide (distSq l e < 900)) = false := by
          simpa [isDuplicateOf] using hd
        simpa using List.any_eq_false.mp hfalse e he
      have hfar : ∀ e ∈ kept, 900 ≤ distSq e l := by
        intro e he
        rw [distSq_comm]
        exact le_of_not_lt (hall e he)
      have hkl : (kept ++ [l]).Pairwise (fun a b => 900 ≤ distSq a b) := by
        refine List.pairwise_append.mpr ⟨h, List.pairwise_singleton _ _, ?_⟩
        intro a ha b hb
        rw [List.mem_singleton] at hb
        subst hb
        exact hfar a ha
      simpa [nmsKeep, hd] using ih (kept ++ [l]) hkl

/-- C1 (corrected).  `analyze_engine_sound` returns the failed-analysis
variant — `analysis_successful = false`, empty fault and sound-pattern lists,
audio quality score 0 rated "failed" — exactly for undecodable input and for
the empty waveform, and it never raises past the component boundary; but a
silent (all-zero) non-empty waveform is not a failure: for every non-empty
decoded waveform the analysis proceeds and reports
`analysis_successful = true`, whatever features the extraction layer
produces. -/
theorem analyze_failure_behaviour (dsp : List ℚ → DspFeatures) :
    analyze_engine_sound none dsp =
      create_failed_analysis "Audio file could not be loaded or is corrupted" ∧
    analyze_engine_sound (some []) dsp =
      create_failed_analysis "Audio file is empty" ∧
    (∀ msg : String,
      (create_failed_analysis msg).analysis_successful = false ∧
      (create_failed_analysis msg).detected_faults = [] ∧
      (create_failed_analysis msg).sound_patterns = [] ∧
      (create_failed_analysis msg).audio_quality.score = 0 ∧
      (create_failed_analysis msg).audio_quality.rating = "failed") ∧
    (∀ y : List ℚ, y ≠ [] →
      (analyze_engine_sound (some y) dsp).analysis_successful = true) := by
  refine ⟨rfl, rfl, fun msg => ⟨rfl, rfl, rfl, rfl, rfl⟩, ?_⟩
  intro y hy
  have hlen : ¬ y.length = 0 := by
    simpa [List.length_eq_zero] using hy
  simp [analyze_engine_sound, hlen]

/-- C1 witness: concrete instantiation of `analyze_failure_behaviour` at the
silent three-sample waveform and a concrete feature extraction. -/
theorem analyze_failure_behaviour_witness :
    (analyze_engine_sound (some [0, 0, 0]) silentDsp).analysis_successful = true :=
  (analyze_failure_behaviour silentDsp).2.2.2 [0, 0, 0] (by decide)

/-- C1 counterexample: on the silent non-empty waveform [0, 0, 0] the claimed
failure variant is not produced — `analysis_successful` is `true` — and even
on the genuinely failing empty waveform the quality rating is "failed", not
"poor". -/
theorem silent_waveform_not_failed :
    (analyze_engine_sound (some [0, 0, 0]) silentDsp).analysis_successful = true ∧
    (analyze_engine_sound (some []) silentDsp).audio_quality.rating = "failed" :=
  ⟨rfl, rfl⟩

/-- C2 (corrected).  On a non-decodable image buffer `analyze_dashboard_image`
returns, without raising, the structurally complete fallback result:
`dashboard_detected = false`, no detected lights, image quality score 0.5
with an "Analysis failed" issue, overall confidence 0.3, and
`processing_successful = false`.  The scores are fixed fallback constants,
not zero. -/
theorem image_failure_result :
    analyze_dashboard_image none =
      { dashboard_detected := false,
        detected_lights := [],
        image_quality_score := 0.5,
        image_quality_issues := ["Analysis failed"],
        overall_confidence := 0.3,
        processing_successful := false } := rfl

/-- C2 counterexample: the fallback result for a non-decodable buffer does not
have zeroed scores — the image quality score is 0.5 and the overall
confidence 0.3, both nonzero. -/
theorem image_failure_scores_not_zero :
    (analyze_dashboard_image none).dashboard_detected = false ∧
    (analyze_dashboard_image none).image_quality_score = 0.5 ∧
    (analyze_dashboard_image none).overall_confidence = 0.3 ∧
    ¬ (analyze_dashboard_image none).image_quality_score = 0 ∧
    ¬ (analyze_dashboard_image none).overall_confidence = 0 := by
  refine ⟨rfl, rfl, rfl, ?_, ?_⟩
  · rw [show (analyze_dashboard_image none).image_quality_score = 0.5 from rfl]
    norm_num
  · rw [show (analyze_dashboard_image none).overall_confidence = 0.3 from rfl]
    norm_num

/-- C10 (confirmed).  Whenever the engine-sound analysis reports failure
(`analysis_successful = false`), the result carries urgency level "normal",
overall confidence 0, audio quality score 0 rated "failed", and the fixed
non-empty repair-keyword list ["audio analysis failed", "re-record audio"],
so downstream tutorial search always receives keywords. -/
theorem failed_variant_fields (msg : String) (decoded : Option (List ℚ))
    (dsp : List ℚ → DspFeatures) :
    ((create_failed_analysis msg).urgency_level = "normal" ∧
      (create_failed_analysis msg).overall_confidence = 0 ∧
      (create_failed_analysis msg).audio_quality.rating = "failed" ∧
      (create_failed_analysis msg).audio_quality.score = 0 ∧
      (create_failed_analysis msg).repair_keywords =
        ["audio analysis failed", "re-record audio"]) ∧
    ((analyze_engine_sound decoded dsp).analysis_successful = false →
      (analyze_engine_sound decoded dsp).urgency_level = "normal" ∧
      (analyze_engine_sound decoded dsp).overall_confidence = 0 ∧
      (analyze_engine_sound decoded dsp).audio_quality.rating = "failed" ∧
      (analyze_engine_sound decoded dsp).audio_quality.score = 0 ∧
      (analyze_engine_sound decoded dsp).repair_keywords =
        ["audio analysis failed", "re-record audio"] ∧
      (analyze_engine_sound decoded dsp).repair_keywords ≠ []) := by
  refine ⟨⟨rfl, rfl, rfl, rfl, rfl⟩, ?_⟩
  cases decoded with
  | none => exact fun _ => ⟨rfl, rfl, rfl, rfl, rfl, by simp [analyze_engine_sound, create_failed_analysis]⟩
  | some y =>
    by_cases hy : y.length = 0
    · have hnil : y = [] := List.length_eq_zero.mp hy
      subst hnil
      exact fun _ => ⟨rfl, rfl, rfl, rfl, rfl, by simp [analyze_engine_sound, create_failed_analysis]⟩
    · intro hfalse
      exfalso
      have htrue : (analyze_engine_sound (some y) dsp).analysis_successful = true := by
        simp [analyze_engine_sound, hy]
      rw [htrue] at hfalse
      cases hfalse

/-- C10 witness: concrete instantiation of `failed_variant_fields` at an
undecodable input. -/
theorem failed_variant_fields_witness :
    (analyze_engine_sound none silentDsp).repair_keywords ≠ [] :=
  (((failed_variant_fields "x" none silentDsp).2) rfl).2.2.2.2.2

/-- C3 (confirmed).  The aggregate urgency level over a list of detected
fault candidates is "critical" as soon as one candidate has urgency
"critical" (whatever its position), otherwise "warning" as soon as one has
urgency "warning", otherwise "normal" — in particular "normal" for the empty
list. -/
theorem urgency_aggregation (l : List FaultCandidate) :
    ((∃ f ∈ l, f.urgency = "critical") →
      determine_urgency_level l = "critical") ∧
    ((¬ ∃ f ∈ l, f.urgency = "critical") → (∃ f ∈ l, f.urgency = "warning") →
      determine_urgency_level l = "warning") ∧
    ((¬ ∃ f ∈ l, f.urgency = "critical") → (¬ ∃ f ∈ l, f.urgency = "warning") →
      determine_urgency_level l = "normal") := by
  refine ⟨?_, ?_, ?_⟩
  · rintro ⟨f, hf, hu⟩
    have hne : l.isEmpty = false := by
      cases l with
      | nil => cases hf
      | cons a t => rfl
    have hany : l.any (fun f => f.urgency == "critical") = true :=
      List.any_eq_true.mpr ⟨f, hf, by simp [hu]⟩
    simp [determine_urgency_level, hne, hany]
  · rintro hnc ⟨f, hf, hu⟩
    have hne : l.isEmpty = false := by
      cases l with
      | nil => cases hf
      | cons a t => rfl
    have hanyc : l.any (fun f => f.urgency == "critical") = false := by
      rw [List.any_eq_false]
      intro x hx hb
      exact hnc ⟨x, hx, by simpa using hb⟩
    have hanyw : l.any (fun f => f.urgency == "warning") = true :=
      List.any_eq_true.mpr ⟨f, hf, by simp [hu]⟩
    simp [determine_urgency_level, hne, hanyc, hanyw]
  · intro hnc hnw
    cases l with
    | nil => rfl
    | cons a t =>
      have hanyc : (a :: t).any (fun f => f.urgency == "critical") = false := by
        rw [List.any_eq_false]
        intro x hx hb
        exact hnc ⟨x, hx, by simpa using hb⟩
      have hanyw : (a :: t).any (fun f => f.urgency == "warning") = false := by
        rw [List.any_eq_false]
        intro x hx hb
        exact hnw ⟨x, hx, by simpa using hb⟩
      simp [determine_urgency_level, hanyc, hanyw]

/-- C3 witness: concrete instantiation of `urgency_aggregation` on a list
with one critical and one warning candidate, in warning-first order. -/
theorem urgency_aggregation_witness :
    determine_urgency_level
      [mkCandidate sparkPlugSig none [], mkCandidate
        { name := "engine_knock", freq_lo := 1000, freq_hi := 4000,
          characteristics := ["knocking", "load_dependent", "metallic"],
          severity := "critical", urgency := "critical",
          keywords := ["engine knock repair", "carbon cleaning", "octane booster"] }
        none []] = "critical" :=
  (urgency_aggregation _).1 ⟨_, List.mem_cons_of_mem _ (List.mem_cons_self _ _), rfl⟩

theorem patternContrib_nonneg (name : String) (p : SoundPattern)
    (h : 0 ≤ p.strength) : 0 ≤ patternContrib name p := by
  unfold patternContrib
  split_ifs <;> first | exact mul_nonneg h (by norm_num) | norm_num

theorem specOverallAudioConfidence_nonneg (faults : List FaultCandidate)
    (qs df : ℚ) (strengths : List ℚ) (hq : 0 ≤ qs)
    (hf : ∀ f ∈ faults, 0 ≤ f.confidence) (hp : ∀ s ∈ strengths, 0 ≤ s) :
    0 ≤ specOverallAudioConfidence faults qs df strengths := by
  unfold specOverallAudioConfidence
  refine le_min ?_ (by norm_num)
  have h1 : 0 ≤ qs * 0.3 := mul_nonneg hq (by norm_num)
  have h2 : (0:ℚ) ≤
      (if faults ≠ [] then
        ((faults.map (fun f =>
            f.confidence * (if f.severity = "critical" then 1 else 0.8))).sum /
          (faults.length : ℚ)) * 0.4
      else 0.2) := by
    split
    · refine mul_nonneg (div_nonneg ?_ (Nat.cast_nonneg _)) (by norm_num)
      refine List.sum_nonneg ?_
      intro x hx
      rw [List.mem_map] at hx
      obtain ⟨f, hfm, rfl⟩ := hx
      refine mul_nonneg (hf f hfm) ?_
      split <;> norm_num
    · norm_num
  have h3 : (0:ℚ) ≤ (if df > 0 then 0.2 else 0) := by split <;> norm_num
  have h4 : (0:ℚ) ≤
      (if strengths ≠ [] then
        (strengths.sum / (strengths.length : ℚ)) * 0.1 else 0) := by
    split
    · exact mul_nonneg (div_nonneg (List.sum_nonneg hp) (Nat.cast_nonneg _))
        (by norm_num)
    · norm_num
  linarith

/-- C4 (confirmed).  The overall audio confidence computed by
`_calculate_enhanced_confidence` equals the specification's closed formula
(quality×0.3, plus mean severity-weighted fault confidence×0.4 or 0.2, plus
0.2 for a positive dominant frequency, plus mean pattern strength×0.1,
capped at 1.0); it never exceeds 1, and it is nonnegative whenever the
quality score, the candidate confidences and the pattern strengths are —
which the producing code guarantees — so it lies in [0, 1]. -/
theorem overall_audio_confidence (faults : List FaultCandidate)
    (aq : AudioQuality) (freq : Option FrequencyAnalysis)
    (ps : List SoundPattern) :
    calculate_enhanced_confidence faults aq freq ps =
      specOverallAudioConfidence faults aq.score (domFreq freq)
        (ps.map (fun p => p.strength)) ∧
    calculate_enhanced_confidence faults aq freq ps ≤ 1 ∧
    (0 ≤ aq.score → (∀ f ∈ faults, 0 ≤ f.confidence) →
      (∀ p ∈ ps, 0 ≤ p.strength) →
      0 ≤ calculate_enhanced_confidence faults aq freq ps) := by
  have heq : calculate_enhanced_confidence faults aq freq ps =
      specOverallAudioConfidence faults aq.score (domFreq freq)
        (ps.map (fun p => p.strength)) := by
    unfold calculate_enhanced_confidence specOverallAudioConfidence
    simp [List.length_map]
  refine ⟨heq, min_le_right _ _, ?_⟩
  intro hq hf hp
  rw [heq]
  refine specOverallAudioConfidence_nonneg _ _ _ _ hq hf ?_
  intro s hs
  rw [List.mem_map] at hs
  obtain ⟨p, hpm, rfl⟩ := hs
  exact hp p hpm

/-- C4 witness: concrete instantiation of `overall_audio_confidence` with no
candidates, a sample spectrum and no patterns. -/
theorem overall_audio_confidence_witness :
    0 ≤ calculate_enhanced_confidence []
      { score := 1/2, rating := "fair", issues := [] } (some sampleFA) [] :=
  (overall_audio_confidence []
      { score := 1/2, rating := "fair", issues := [] } (some sampleFA) []).2.2
    (by norm_num)
    (by intro f hf; cases hf)
    (by intro p hp; cases hp)

/-- C6 (confirmed).  Fault-confidence accumulation is monotonic: the
accumulated confidence is the sum of the four evidence scores; the
dominant-frequency, peak and band-energy scores are always nonnegative; the
pattern score is nonnegative whenever the recorded pattern strengths are (the
pattern detectors only emit strengths above positive thresholds); appending
one further pattern of nonnegative strength never decreases the total; and
the confidence recorded on every emitted candidate is capped at 1. -/
theorem fault_confidence_monotone (sig : FaultSignature)
    (freq : Option FrequencyAnalysis) (ps : List SoundPattern) :
    faultConfidence sig freq ps =
      freqRangeScore sig freq + peakScore sig freq + bandScore sig.name freq +
        patternScore sig.name ps ∧
    0 ≤ freqRangeScore sig freq ∧
    0 ≤ peakScore sig freq ∧
    0 ≤ bandScore sig.name freq ∧
    ((∀ p ∈ ps, 0 ≤ p.strength) → 0 ≤ patternScore sig.name ps) ∧
    (∀ p : SoundPattern, 0 ≤ p.strength →
      faultConfidence sig freq ps ≤ faultConfidence sig freq (ps ++ [p])) ∧
    (∀ c ∈ detect_engine_faults freq ps, c.confidence ≤ 1) := by
  refine ⟨rfl, ?_, ?_, ?_, ?_, ?_, ?_⟩
  · unfold freqRangeScore
    split <;> norm_num
  · unfold peakScore
    split
    · refine mul_nonneg (by norm_num) (le_min ?_ (by norm_num))
      positivity
    · norm_num
  · unfold bandScore
    split_ifs <;> try norm_num
    all_goals split <;> norm_num
  · intro hp
    refine List.sum_nonneg ?_
    intro x hx
    rw [List.mem_map] at hx
    obtain ⟨p, hpm, rfl⟩ := hx
    exact patternContrib_nonneg _ p (hp p hpm)
  · intro p hps
    have hsum : patternScore sig.name (ps ++ [p]) =
        patternScore sig.name ps + patternContrib sig.name p := by
      simp [patternScore]
    unfold faultConfidence
    rw [hsum]
    have := patternContrib_nonneg sig.name p hps
    linarith
  · intro c hc
    unfold detect_engine_faults at hc
    rw [List.mem_insertionSort, List.mem_map] at hc
    obtain ⟨s, _, rfl⟩ := hc
    exact min_le_right _ _

/-- C6 witness: concrete instantiation of `fault_confidence_monotone` showing
that adding a matching impulsive pattern of strength 1/2 does not decrease
the spark-plug-misfire confidence. -/
theorem fault_confidence_monotone_witness :
    faultConfidence sparkPlugSig (some sampleFA) [] ≤
      faultConfidence sparkPlugSig (some sampleFA)
        ([] ++ [{ pattern_type := "impulsive", strength := 1/2 }]) :=
  (fault_confidence_monotone sparkPlugSig (some sampleFA) []).2.2.2.2.2.1
    { pattern_type := "impulsive", strength := 1/2 } (by norm_num)

/-- C5 (confirmed).  A signature of the static table becomes a fault
candidate exactly when its accumulated confidence exceeds 0.4; every emitted
candidate arises from such a signature; the emitted list is sorted by
confidence, descending; and the sort is stable: restricted to any fixed
confidence value, the emitted list coincides with the threshold-filtered
table in its declaration order. -/
theorem fault_candidate_threshold_and_order (freq : Option FrequencyAnalysis)
    (ps : List SoundPattern) :
    (∀ sig ∈ engine_fault_patterns,
      (mkCandidate sig freq ps ∈ detect_engine_faults freq ps ↔
        faultConfidence sig freq ps > 0.4)) ∧
    (∀ c ∈ detect_engine_faults freq ps, ∃ sig ∈ engine_fault_patterns,
      faultConfidence sig freq ps > 0.4 ∧ c = mkCandidate sig freq ps) ∧
    List.Sorted faultGE (detect_engine_faults freq ps) ∧
    (∀ q : ℚ,
      (detect_engine_faults freq ps).filter (fun c => decide (c.confidence = q)) =
        ((engine_fault_patterns.filter
            (fun sig => decide (faultConfidence sig freq ps > 0.4))).map
          (fun sig => mkCandidate sig freq ps)).filter
            (fun c => decide (c.confidence = q))) := by
  refine ⟨?_, ?_, List.sorted_insertionSort faultGE _,
    fun q => filter_conf_insertionSort q _⟩
  · intro sig hsig
    constructor
    · intro hmem
      unfold detect_engine_faults at hmem
      rw [List.mem_insertionSort, List.mem_map] at hmem
      obtain ⟨s, hs, he⟩ := hmem
      rw [List.mem_filter] at hs
      have hss : s = sig := mkCandidate_inj_on freq ps s hs.1 sig hsig he
      subst hss
      simpa using hs.2
    · intro hconf
      unfold detect_engine_faults
      rw [List.mem_insertionSort, List.mem_map]
      exact ⟨sig, List.mem_filter.mpr ⟨hsig, by simpa using hconf⟩, rfl⟩
  · intro c hc
    unfold detect_engine_faults at hc
    rw [List.mem_insertionSort, List.mem_map] at hc
    obtain ⟨s, hs, he⟩ := hc
    rw [List.mem_filter] at hs
    exact ⟨s, hs.1, by simpa using hs.2, he.symm⟩

/-- C5 witness: concrete instantiation of
`fault_candidate_threshold_and_order` — on the sample spectrum the
spark-plug-misfire signature passes the threshold and is emitted. -/
theorem fault_candidate_threshold_witness :
    mkCandidate sparkPlugSig (some sampleFA) [] ∈
      detect_engine_faults (some sampleFA) [] := by
  refine ((fault_candidate_threshold_and_order (some sampleFA) []).1
    sparkPlugSig (List.mem_cons_self _ _)).mpr ?_
  unfold faultConfidence freqRangeScore peakScore matchingPeaks bandScore
    patternScore
  norm_num [peakFreqs, domFreq, bandsOf, sumBands, sampleFA, sparkPlugSig]
  rw [if_neg (by simp)]
  norm_num

/-- Sample lights for concrete instantiations: three collinear red lights 10
pixels apart with decreasing confidence. -/
def cexA : WarningLight :=
  { color := "red", x := 0, y := 0, confidence := 3, severity := "critical" }

def cexB : WarningLight :=
  { color := "red", x := 10, y := 0, confidence := 2, severity := "critical" }

def cexC : WarningLight :=
  { color := "red", x := 20, y := 0, confidence := 1, severity := "critical" }

/-- Two lights whose centers are exactly 30 pixels apart. -/
def cexP : WarningLight :=
  { color := "red", x := 0, y := 0, confidence := 3, severity := "critical" }

def cexQ : WarningLight :=
  { color := "red", x := 30, y := 0, confidence := 2, severity := "critical" }

/-- C7 counterexample: lights B and C lie within 30 pixels of each other, yet
neither survives deduplication of [A, B, C] — both are suppressed by the
stronger A — so "exactly one of any close pair survives" fails; and two
lights exactly 30 pixels apart both survive, so "kept only if farther than
30 pixels" also fails at the boundary. -/
theorem light_dedup_counterexample :
    distSq cexB cexC < 900 ∧
    remove_overlapping_lights [cexA, cexB, cexC] = [cexA] ∧
    cexB ∉ remove_overlapping_lights [cexA, cexB, cexC] ∧
    cexC ∉ remove_overlapping_lights [cexA, cexB, cexC] ∧
    distSq cexP cexQ = 900 ∧
    remove_overlapping_lights [cexP, cexQ] = [cexP, cexQ] := by
  have hout : remove_overlapping_lights [cexA, cexB, cexC] = [cexA] := by decide
  have hout2 : remove_overlapping_lights [cexP, cexQ] = [cexP, cexQ] := by decide
  refine ⟨by decide, hout, ?_, ?_, by decide, hout2⟩
  · rw [hout]
    intro h
    rw [List.mem_singleton] at h
    exact absurd (congrArg WarningLight.x h) (by decide)
  · rw [hout]
    intro h
    rw [List.mem_singleton] at h
    exact absurd (congrArg WarningLight.x h) (by decide)

/-- C7 (corrected).  Deduplication sorts candidates by confidence descending
and greedily keeps a light only when its center is at least 30 pixels
(Euclidean) from every already-kept center.  Consequently any two surviving
lights are at least 30 pixels apart — of two candidates within 30 pixels at
most one survives — and when the candidate list consists of exactly two
lights within 30 pixels, the higher-confidence one survives, in either input
order. -/
theorem light_dedup_nms (lights : List WarningLight) :
    (remove_overlapping_lights lights).Pairwise
      (fun a b => 900 ≤ distSq a b) ∧
    (∀ a b : WarningLight, distSq a b < 900 → b.confidence < a.confidence →
      remove_overlapping_lights [a, b] = [a] ∧
      remove_overlapping_lights [b, a] = [a]) := by
  constructor
  · unfold remove_overlapping_lights
    split
    · rename_i h
      cases lights with
      | nil => exact List.Pairwise.nil
      | cons x t =>
        cases t with
        | nil => exact List.pairwise_singleton _ x
        | cons y t2 => simp at h
    · exact nmsKeep_pairwise _ [] List.Pairwise.nil
  · intro a b hd hc
    have hle : lightGE a b := le_of_lt hc
    have hnle : ¬ lightGE b a := not_le.mpr hc
    have hsort1 : List.insertionSort lightGE [a, b] = [a, b] := by
      simp [List.insertionSort, List.orderedInsert, hle]
    have hsort2 : List.insertionSort lightGE [b, a] = [a, b] := by
      simp [List.insertionSort, List.orderedInsert, hnle]
    have hdup : isDuplicateOf b [a] = true := by
      simp [isDuplicateOf]
      rw [distSq_comm]
      exact hd
    have hrun : nmsKeep [] [a, b] = [a] := by
      have h1 : isDuplicateOf a [] = false := rfl
      simp [nmsKeep, h1, hdup]
    constructor
    · unfold remove_overlapping_lights
      rw [if_neg (by simp), hsort1, hrun]
    · unfold remove_overlapping_lights
      rw [if_neg (by simp), hsort2, hrun]

/-- C7 witness: concrete instantiation of `light_dedup_nms` on the close pair
B, C — the higher-confidence B survives when they are the only candidates. -/
theorem light_dedup_nms_witness :
    remove_overlapping_lights [cexB, cexC] = [cexB] :=
  (((light_dedup_nms []).2 cexB cexC (by decide) (by decide))).1

/-- C8 (confirmed).  The warning-light confidence equals the sum of the
specification's area-band, aspect-ratio and brightness scores (the code's
final cap at 1.0 is inert since that sum never exceeds 1); a contour is
accepted only if this confidence exceeds 0.3 (after the 20-2000 px area
gate); and each detected color maps to its fixed severity: red critical,
orange and amber high, yellow medium, blue and green low. -/
theorem light_confidence_formula (area aspect_ratio brightness : ℚ) :
    calculate_light_confidence area aspect_ratio brightness =
      specAreaScore area + specAspectScore aspect_ratio +
        specBrightnessScore brightness ∧
    (lightAccepted area aspect_ratio brightness →
      calculate_light_confidence area aspect_ratio brightness > 0.3) ∧
    map_color_to_severity "red" = "critical" ∧
    map_color_to_severity "orange" = "high" ∧
    map_color_to_severity "amber" = "high" ∧
    map_color_to_severity "yellow" = "medium" ∧
    map_color_to_severity "blue" = "low" ∧
    map_color_to_severity "green" = "low" := by
  refine ⟨?_, fun h => h.2, rfl, rfl, rfl, rfl, rfl, rfl⟩
  unfold calculate_light_confidence specAreaScore specAspectScore
    specBrightnessScore
  rw [min_eq_left (by split_ifs <;> norm_num)]

/-- C8 witness: concrete instantiation of `light_confidence_formula` at an
accepted contour (area 100, aspect ratio 1, brightness 0.7). -/
theorem light_confidence_formula_witness :
    calculate_light_confidence 100 1 (7/10) > 0.3 :=
  (light_confidence_formula 100 1 (7/10)).2.1
    ⟨⟨by norm_num, by norm_num⟩, by norm_num [calculate_light_confidence]⟩

/-- C9 (confirmed).  Any declared content type outside the fixed whitelist —
"text/plain" for instance — is rejected by format validation; the route then
exits with that validation failure before the uploaded bytes are decoded or
analyzed (the outcome is independent of what the bytes would decode to); and
a validation failure is a distinct outcome from a decode/analysis
failure. -/
theorem unsupported_content_type_rejected (content_type filename : String)
    (decodedA decodedB : Option (List ℚ)) (dsp : List ℚ → DspFeatures)
    (h : supported_formats.lookup content_type = none) :
    (validate_audio_format content_type filename).fst = false ∧
    diagnose_engine_sound true content_type filename decodedA dsp =
      RouteOutcome.validationFailure
        (validate_audio_format content_type filename).snd ∧
    diagnose_engine_sound true content_type filename decodedA dsp =
      diagnose_engine_sound true content_type filename decodedB dsp ∧
    (∀ m1 m2 : String,
      RouteOutcome.validationFailure m1 ≠ RouteOutcome.analysisFailure m2) := by
  have hv : (validate_audio_format content_type filename).fst = false := by
    unfold validate_audio_format
    by_cases hs : content_type.startsWith "audio/"
    · simp [hs, h]
    · simp [hs]
  refine ⟨hv, ?_, ?_, fun m1 m2 hne => RouteOutcome.noConfusion hne⟩
  · unfold diagnose_engine_sound
    simp [hv]
  · unfold diagnose_engine_sound
    simp [hv]

/-- C9 witness: concrete instantiation of
`unsupported_content_type_rejected` at the declared type "text/plain". -/
theorem unsupported_content_type_rejected_witness :
    (validate_audio_format "text/plain" "a.txt").fst = false :=
  (unsupported_content_type_rejected "text/plain" "a.txt" none (some [0])
    silentDsp rfl).1

end CarDocAI
